import Mathlib

/-!
Shallow embedding of the First-Flame seeding workers of this repository:

* `src/modal_app/update_flame_status.py` — orchestrator variant with content
  validation and realtime broadcast (`update_flame_status`);
* `src/temporal-worker/modal-fns/ensure_flame_state.py` — thin variant doing
  three client-side upserts (`ensure_flame_state`).

The remote relational store, object storage and broadcast channel are external
collaborators; their behaviour at the interface boundary is supplied by an
environment record (`RemoteEnv`, `OsEnv`).  Python exceptions are modelled by
the `PyErr` inductive and `Except PyErr`; the class distinction the code
branches on (postgrest `APIError` versus everything else) is the constructor
distinction.  Every remote call that the code issues is recorded in an
execution trace, and every broadcast event actually delivered is recorded in
an event list, so that ordering and frame properties can be stated.
-/

namespace FirstFlame

/-- Python exception values relevant to the two workers.  `apiError` stands
for `postgrest.exceptions.APIError` (the only class the code catches
selectively); `keyError` for the `KeyError` raised by `os.environ[...]`;
`valueError` for `ValueError` (including `json.JSONDecodeError`);
`runtimeError` for the `RuntimeError` the orchestrator wraps RPC failures in;
`otherError` for any other exception class (connection errors,
`AttributeError`, storage errors, ...). -/
inductive PyErr where
  | apiError (code : String) (message : String)
  | valueError (message : String)
  | runtimeError (message : String)
  | keyError (key : String)
  | otherError (message : String)
deriving DecidableEq, Repr

/-- The message text carried by an exception, as `exc.message` / `str(exc)`
would render it. -/
def PyErr.message : PyErr → String
  | .apiError _ m => m
  | .valueError m => m
  | .runtimeError m => m
  | .keyError k => k
  | .otherError m => m

/-- Whether the exception is a postgrest `APIError`, the class matched by the
selective `except APIError` handlers in both files. -/
def PyErr.isAPIError : PyErr → Bool
  | .apiError _ _ => true
  | _ => false

/-- Whether an `Except` outcome is a raised exception. -/
def isErr {α : Type} : Except PyErr α → Bool
  | .error _ => true
  | .ok _ => false

/-- Parsed JSON values, the result type of Python `json.loads`. -/
inductive JValue where
  | jnull
  | jbool (b : Bool)
  | jnum (n : Int)
  | jstr (s : String)
  | jarr (elems : List JValue)
  | jobj (fields : List (String × JValue))
deriving Repr

/-- Python truthiness of a JSON value: `None`, `False`, `0`, `""`, `[]` and
`\x7b\x7d` are falsy, everything else truthy.  This is the test applied by
`if not data.get("prompts")` in `_load_daydef`. -/
def JValue.truthy : JValue → Bool
  | .jnull => false
  | .jbool b => b
  | .jnum n => n != 0
  | .jstr s => !s.isEmpty
  | .jarr xs => !xs.isEmpty
  | .jobj fs => !fs.isEmpty

/-- Dictionary lookup, `dict.get(k)`: `none` when the key is absent. -/
def jget (fs : List (String × JValue)) (k : String) : Option JValue :=
  (fs.find? (fun p => p.1 == k)).map Prod.snd

/-- Canonical slug constant `FIRST_FLAME_SLUG`, identical in both files. -/
def FIRST_FLAME_SLUG : String := "first-flame-ritual"

/-- Broadcast channel constant `BROADCAST_CHANNEL`. -/
def BROADCAST_CHANNEL : String := "flame_status"

/-- The object-storage key `f"\x7bDAYDEF_PREFIX\x7dday-\x7bday\x7d.json"` with
`DAYDEF_PREFIX = "5-day/"`. -/
def daydefKey (day : Nat) : String := "5-day/day-" ++ toString day ++ ".json"

/-- A row of the `quests` table, the columns the upsert payload touches. -/
structure QuestRow where
  id : String
  slug : String
  title : String
  qtype : String
  realm : String
  is_pinned : Bool
deriving DecidableEq, Repr

/-- A row of the `quest_participants` table. -/
structure PartRow where
  quest_id : String
  user_id : String
  role : String
deriving DecidableEq, Repr

/-- A row of the `flame_progress` table. -/
structure ProgressRow where
  quest_id : String
  user_id : String
  current_day_target : Nat
  is_quest_complete : Bool
deriving DecidableEq, Repr

/-- The slice of the remote relational store the workers write. -/
structure DB where
  quests : List QuestRow
  participants : List PartRow
  progress : List ProgressRow
deriving DecidableEq, Repr

/-- The empty store: a fresh deployment with no rows. -/
def DB.empty : DB := ⟨[], [], []⟩

/-- One remote call issued by a run, in issue order.  A call is recorded when
it is attempted, whether or not it succeeds. -/
inductive Op where
  | questUpsert
  | participantUpsert
  | progressUpsert
  | rpcEnsureFirstFlame
  | storageDownload (key : String)
  | broadcastPublish (event : String)
deriving DecidableEq, Repr

/-- A broadcast event actually delivered on `BROADCAST_CHANNEL`: the payload
built by `_broadcast_ready` is `\x7b"user_id": ..., "detail"?: ...\x7d`. -/
structure BEvent where
  event : String
  user_id : String
  detail : Option String
deriving DecidableEq, Repr

/-- The observable state threaded through one run: the store, the delivered
events, and the trace of attempted remote calls. -/
structure RunState where
  db : DB
  events : List BEvent
  trace : List Op
deriving Repr

/-- Initial run state over a given store. -/
def initState (db : DB) : RunState := ⟨db, [], []⟩

/-- The process environment at run start: the two credentials read from
`os.environ`.  `none` means the variable is absent, so the lookup raises
`KeyError`. -/
structure OsEnv where
  SUPABASE_URL : Option String
  SUPABASE_SERVICE_ROLE_KEY : Option String

/-- Behaviour of the remote collaborators during one run.

Each `...Fail` field is `some e` when the corresponding remote write raises
exception `e`, `none` when it succeeds.  `freshQuestId` is the id the store
generates if the quest insert does not hit the slug conflict.  `download` and
`jsonLoads` model `sb.storage...download` and Python `json.loads` (a
`jsonLoads` error stands for a decode or JSON parse failure).  `broadcastFail`
is the outcome of the `broadcast` RPC whenever it is invoked.

Modelled from the spec: the server-side procedure `ensure_first_flame` is not
part of the repository sources (only its caller is); per the spec it is a
single atomic remote call performing participant-plus-progress seeding
server-side and returning an imprint id.  Its returned value is the oracle
`rpcResult` and its state effect the oracle `rpcDb`, applied only on success
(atomicity: a failed call leaves the store unchanged). -/
structure RemoteEnv where
  questUpsertFail : Option PyErr
  freshQuestId : String
  participantUpsertFail : Option PyErr
  progressUpsertFail : Option PyErr
  rpcResult : Except PyErr String
  rpcDb : DB → DB
  download : String → Except PyErr String
  jsonLoads : String → Except PyErr JValue
  broadcastFail : Option PyErr

/-- The quest upsert payload applied to the store: insert a row for
`FIRST_FLAME_SLUG` if none exists (the store generates its id), else update
the payload columns of the existing row in place (conflict target `slug`);
either way the representation returned is the row for the slug, whose id is
the second component.  Upsert semantics per the store contract: insert, or
update in place on uniqueness conflict. -/
def upsertQuestRow (env : RemoteEnv) (db : DB) : DB × String :=
  match db.quests.find? (fun q => q.slug == FIRST_FLAME_SLUG) with
  | some q =>
      (⟨db.quests.map (fun r =>
          if r.slug == FIRST_FLAME_SLUG then
            { r with title := "First Flame Ritual", qtype := "ritual",
                     realm := FIRST_FLAME_SLUG, is_pinned := true }
          else r),
        db.participants, db.progress⟩, q.id)
  | none =>
      (⟨db.quests ++ [⟨env.freshQuestId, FIRST_FLAME_SLUG, "First Flame Ritual",
                      "ritual", FIRST_FLAME_SLUG, true⟩],
        db.participants, db.progress⟩, env.freshQuestId)

/-- The participant upsert payload applied to the store: conflict target
`(quest_id, user_id)`; insert `role = "participant"` or update it in place. -/
def upsertParticipantRow (db : DB) (qid uid : String) : DB :=
  if db.participants.any (fun p => p.quest_id == qid && p.user_id == uid) then
    ⟨db.quests,
     db.participants.map (fun p =>
       if p.quest_id == qid && p.user_id == uid then { p with role := "participant" } else p),
     db.progress⟩
  else
    ⟨db.quests, db.participants ++ [⟨qid, uid, "participant"⟩], db.progress⟩

/-- The progress upsert payload applied to the store: conflict target
`(quest_id, user_id)`; insert the day-1 defaults, or on conflict update the
payload columns `current_day_target := 1`, `is_quest_complete := false` in
place — the write is unconditional, not insert-only. -/
def upsertProgressRow (db : DB) (qid uid : String) : DB :=
  if db.progress.any (fun p => p.quest_id == qid && p.user_id == uid) then
    ⟨db.quests, db.participants,
     db.progress.map (fun p =>
       if p.quest_id == qid && p.user_id == uid then
         { p with current_day_target := 1, is_quest_complete := false }
       else p)⟩
  else
    ⟨db.quests, db.participants, db.progress ++ [⟨qid, uid, 1, false⟩]⟩

/-- Embedding of `_broadcast`: records the publish attempt, then either
delivers the event, or — when the RPC raises — swallows the exception when it
is an `APIError` (logged only) and lets any other exception class
propagate. -/
def broadcast (env : RemoteEnv) (st : RunState) (event : String)
    (user_id : String) (detail : Option String) : RunState × Except PyErr Unit :=
  let st' : RunState := ⟨st.db, st.events, st.trace ++ [Op.broadcastPublish event]⟩
  match env.broadcastFail with
  | none => (⟨st'.db, st'.events ++ [⟨event, user_id, detail⟩], st'.trace⟩, .ok ())
  | some e => if e.isAPIError then (st', .ok ()) else (st', .error e)

/-- Embedding of `_broadcast_ready`: builds the payload
`\x7b"user_id": ..., "detail"?: ...\x7d` and delegates to `broadcast`. -/
def broadcast_ready (env : RemoteEnv) (st : RunState) (user_id : String)
    (event : String) (detail : Option String) : RunState × Except PyErr Unit :=
  broadcast env st event user_id detail

/-- Embedding of `_ensure_quest` (both files): one upsert round trip on the
`quests` table with conflict target `slug`, returning `resp.data[0]["id"]`.
The variant in `ensure_flame_state.py` additionally logs an `APIError` before
re-raising it; propagation is identical in both variants, so one definition
serves both. -/
def ensure_quest (env : RemoteEnv) (st : RunState) : RunState × Except PyErr String :=
  let st' : RunState := ⟨st.db, st.events, st.trace ++ [Op.questUpsert]⟩
  match env.questUpsertFail with
  | some e => (st', .error e)
  | none =>
      (⟨(upsertQuestRow env st'.db).1, st'.events, st'.trace⟩,
       .ok (upsertQuestRow env st'.db).2)

/-- Embedding of `_ensure_participant` (`ensure_flame_state.py`): upsert of
the participant row; an `APIError` is logged and re-raised, so every failure
propagates. -/
def ensure_participant (env : RemoteEnv) (st : RunState) (quest_id user_id : String) :
    RunState × Except PyErr Unit :=
  let st' : RunState := ⟨st.db, st.events, st.trace ++ [Op.participantUpsert]⟩
  match env.participantUpsertFail with
  | some e => (st', .error e)
  | none => (⟨upsertParticipantRow st'.db quest_id user_id, st'.events, st'.trace⟩, .ok ())

/-- Embedding of `_ensure_progress` (`ensure_flame_state.py`): upsert of the
progress row with the day-1 default payload
`current_day_target = 1, is_quest_complete = False`; an `APIError` is logged
and re-raised, so every failure propagates. -/
def ensure_progress (env : RemoteEnv) (st : RunState) (quest_id user_id : String) :
    RunState × Except PyErr Unit :=
  let st' : RunState := ⟨st.db, st.events, st.trace ++ [Op.progressUpsert]⟩
  match env.progressUpsertFail with
  | some e => (st', .error e)
  | none => (⟨upsertProgressRow st'.db quest_id user_id, st'.events, st'.trace⟩, .ok ())

/-- The shared exception handler of `_load_daydef`: both the `except APIError`
branch and the catch-all branch log, broadcast a best-effort `error` event
with the exception text as detail, and re-raise the original exception.  In
Python an exception raised by the broadcast itself, inside the handler,
replaces the original one; the model mirrors that. -/
def daydefOnExc (env : RemoteEnv) (st : RunState) (user_id : String) (e : PyErr) :
    RunState × Except PyErr JValue :=
  match broadcast_ready env st user_id "error" (some e.message) with
  | (st', .error e2) => (st', .error e2)
  | (st', .ok _) => (st', .error e)

/-- Embedding of `_load_daydef`: download `5-day/day-<n>.json`, decode and
`json.loads` it, then reject with `ValueError` unless `data.get("prompts")`
is truthy; a document that is not a JSON object has no `.get` and raises
`AttributeError` (caught by the catch-all).  On success the parsed document
is returned unchanged; on any exception the handler `daydefOnExc` runs. -/
def load_daydef (env : RemoteEnv) (st : RunState) (user_id : String) (day : Nat) :
    RunState × Except PyErr JValue :=
  let st' : RunState := ⟨st.db, st.events, st.trace ++ [Op.storageDownload (daydefKey day)]⟩
  match env.download (daydefKey day) with
  | .error e => daydefOnExc env st' user_id e
  | .ok blob =>
      match env.jsonLoads blob with
      | .error e => daydefOnExc env st' user_id e
      | .ok data =>
          match data with
          | .jobj fs =>
              match jget fs "prompts" with
              | some v =>
                  if v.truthy then (st', .ok data)
                  else daydefOnExc env st' user_id
                    (.valueError "Day-definition JSON missing 'prompts' array")
              | none => daydefOnExc env st' user_id
                  (.valueError "Day-definition JSON missing 'prompts' array")
          | _ => daydefOnExc env st' user_id (.otherError "AttributeError: no attribute get")

/-- The `except APIError` handler of step 2 of `update_flame_status`:
broadcast a best-effort `error` event with the APIError message as detail,
then raise `RuntimeError(exc.message)`; an exception raised by the broadcast
itself, inside the handler, replaces the original one. -/
def rpcOnApiErr (env : RemoteEnv) (st : RunState) (user_id : String) (e : PyErr) :
    RunState × Except PyErr Unit :=
  match broadcast_ready env st user_id "error" (some e.message) with
  | (st3, .error e2) => (st3, .error e2)
  | (st3, .ok _) => (st3, .error (.runtimeError e.message))

/-- The tail of a successful `update_flame_status` run: broadcast `ready` and
return `None`; a non-APIError exception raised by the broadcast propagates. -/
def finishReady (env : RemoteEnv) (st : RunState) (user_id : String) :
    RunState × Except PyErr Unit :=
  match broadcast_ready env st user_id "ready" none with
  | (st4, .error e) => (st4, .error e)
  | (st4, .ok _) => (st4, .ok ())

/-- Embedding of the orchestrator `update_flame_status` (returns `None`, i.e.
`Unit`, on success).  Order of execution, as in the source: read both
credentials from the environment (a missing one raises `KeyError` before any
remote call); ensure the quest (no handler — a failure propagates raw);
call the `ensure_first_flame` RPC (an `APIError` broadcasts a best-effort
`error` event and is re-raised wrapped in `RuntimeError`; any other exception
propagates raw); validate the day-1 definition; broadcast `ready`. -/
def update_flame_status (osenv : OsEnv) (env : RemoteEnv) (db : DB) (user_id : String) :
    RunState × Except PyErr Unit :=
  match osenv.SUPABASE_URL with
  | none => (initState db, .error (.keyError "SUPABASE_URL"))
  | some _ =>
  match osenv.SUPABASE_SERVICE_ROLE_KEY with
  | none => (initState db, .error (.keyError "SUPABASE_SERVICE_ROLE_KEY"))
  | some _ =>
  match ensure_quest env (initState db) with
  | (st1, .error e) => (st1, .error e)
  | (st1, .ok _quest_id) =>
      match env.rpcResult with
      | .error e =>
          let st2 : RunState := ⟨st1.db, st1.events, st1.trace ++ [Op.rpcEnsureFirstFlame]⟩
          if e.isAPIError then rpcOnApiErr env st2 user_id e
          else (st2, .error e)
      | .ok _imprint_id =>
          let st2 : RunState :=
            ⟨env.rpcDb st1.db, st1.events, st1.trace ++ [Op.rpcEnsureFirstFlame]⟩
          match load_daydef env st2 user_id 1 with
          | (st3, .error e) => (st3, .error e)
          | (st3, .ok _) => finishReady env st3 user_id

/-- The success return value of `ensure_flame_state`:
`\x7b"quest_id": quest_id\x7d`. -/
structure EnsureResult where
  quest_id : String
deriving DecidableEq, Repr

/-- Embedding of the thin worker `ensure_flame_state`: read both credentials
(a missing one raises `KeyError` before any remote call), then three
sequential upserts — quest, participant, progress — each of whose failures
propagates; on success return the quest id.  No broadcast call exists in this
variant. -/
def ensure_flame_state (osenv : OsEnv) (env : RemoteEnv) (db : DB) (user_id : String) :
    RunState × Except PyErr EnsureResult :=
  match osenv.SUPABASE_URL with
  | none => (initState db, .error (.keyError "SUPABASE_URL"))
  | some _ =>
  match osenv.SUPABASE_SERVICE_ROLE_KEY with
  | none => (initState db, .error (.keyError "SUPABASE_SERVICE_ROLE_KEY"))
  | some _ =>
  match ensure_quest env (initState db) with
  | (st1, .error e) => (st1, .error e)
  | (st1, .ok quest_id) =>
      match ensure_participant env st1 quest_id user_id with
      | (st2, .error e) => (st2, .error e)
      | (st2, .ok _) =>
          match ensure_progress env st2 quest_id user_id with
          | (st3, .error e) => (st3, .error e)
          | (st3, .ok _) => (st3, .ok ⟨quest_id⟩)

/-- Whether the content-validation step succeeds for the given day under the
given environment: the download yields bytes that parse to a JSON object
whose `prompts` entry is present and truthy. -/
def contentOk (env : RemoteEnv) (day : Nat) : Bool :=
  match env.download (daydefKey day) with
  | .error _ => false
  | .ok blob =>
      match env.jsonLoads blob with
      | .error _ => false
      | .ok (.jobj fs) =>
          match jget fs "prompts" with
          | some v => v.truthy
          | none => false
      | .ok _ => false

/-- Whether every broadcast publish during the run completes without raising
out of `broadcast`: either the RPC succeeds, or it raises an `APIError`,
which the handler swallows. -/
def broadcastSwallowed (env : RemoteEnv) : Bool :=
  match env.broadcastFail with
  | none => true
  | some e => e.isAPIError

/-- A process environment holding both credentials. -/
def osOk : OsEnv := ⟨some "https://store.example", some "service-key"⟩

/-- A fully healthy remote environment: every call succeeds and the day-1
document is a JSON object with one prompt. -/
def envAllOk : RemoteEnv where
  questUpsertFail := none
  freshQuestId := "q-fresh"
  participantUpsertFail := none
  progressUpsertFail := none
  rpcResult := .ok "imprint-1"
  rpcDb := fun db => db
  download := fun _ => .ok "blob"
  jsonLoads := fun _ => .ok (.jobj [("prompts", .jarr [.jobj [("text", .jstr "hi")]])])
  broadcastFail := none

/-- A store in which user u1 has already advanced to day 3 and completed the
quest. -/
def dbAdvanced : DB :=
  ⟨[⟨"q1", FIRST_FLAME_SLUG, "First Flame Ritual", "ritual", FIRST_FLAME_SLUG, true⟩],
   [⟨"q1", "u1", "participant"⟩],
   [⟨"q1", "u1", 3, true⟩]⟩

/-- Healthy environment except that the broadcast RPC raises a connection
error, an exception class other than APIError. -/
def envBCFail : RemoteEnv := { envAllOk with broadcastFail := some (.otherError "ConnectionError") }

/-- Healthy environment except that the broadcast RPC raises an APIError. -/
def envBCApi : RemoteEnv := { envAllOk with broadcastFail := some (.apiError "500" "oops") }

/-- Environment in which the quest upsert is rejected by the store. -/
def envQFail : RemoteEnv := { envAllOk with questUpsertFail := some (.apiError "42501" "permission denied") }

/-- Environment in which the ensure_first_flame RPC raises a connection
error, an exception class other than APIError. -/
def envRpcConnFail : RemoteEnv :=
  { envAllOk with rpcResult := .error (.otherError "ConnectionError") }

/-- Environment in which the day-1 document parses to an object with an empty
prompts array. -/
def envEmptyPrompts : RemoteEnv :=
  { envAllOk with jsonLoads := fun _ => .ok (.jobj [("prompts", .jarr [])]) }

/-- Environment in which the day-1 object is missing from storage. -/
def envContentMissing : RemoteEnv :=
  { envAllOk with download := fun _ => .error (.otherError "object not found") }

/-- Environment in which the day-1 document parses to an object whose prompts
entry is a non-collection truthy value (a non-zero number). -/
def envPromptsNum : RemoteEnv :=
  { envAllOk with jsonLoads := fun _ => .ok (.jobj [("prompts", .jnum 7)]) }

/-- A store holding one first-flame quest row with the given id and no other
rows. -/
def dbWithQuest (qid : String) : DB :=
  ⟨[⟨qid, FIRST_FLAME_SLUG, "First Flame Ritual", "ritual", FIRST_FLAME_SLUG, true⟩], [], []⟩

/-- The pure outcome of the content-validation step: the value `_load_daydef`
returns or the exception it raises, assuming the broadcast inside its handler
does not itself raise. -/
def loadOutcome (env : RemoteEnv) (day : Nat) : Except PyErr JValue :=
  match env.download (daydefKey day) with
  | .error e => .error e
  | .ok blob =>
      match env.jsonLoads blob with
      | .error e => .error e
      | .ok (.jobj fs) =>
          match jget fs "prompts" with
          | some v =>
              if v.truthy then .ok (.jobj fs)
              else .error (.valueError "Day-definition JSON missing 'prompts' array")
          | none => .error (.valueError "Day-definition JSON missing 'prompts' array")
      | .ok _ => .error (.otherError "AttributeError: no attribute get")

/-- The pure outcome of a whole `update_flame_status` run with both
credentials present, assuming broadcast failures are swallowed. -/
def runOutcome (env : RemoteEnv) : Except PyErr Unit :=
  match env.questUpsertFail with
  | some e => .error e
  | none =>
      match env.rpcResult with
      | .error e => if e.isAPIError then .error (.runtimeError e.message) else .error e
      | .ok _ =>
          match loadOutcome env 1 with
          | .error e => .error e
          | .ok _ => .ok ()

theorem ensure_quest_err (env : RemoteEnv) (st : RunState) (e : PyErr)
    (h : env.questUpsertFail = some e) :
    ensure_quest env st = (⟨st.db, st.events, st.trace ++ [Op.questUpsert]⟩, .error e) := by
  simp [ensure_quest, h]

theorem ensure_quest_ok (env : RemoteEnv) (st : RunState)
    (h : env.questUpsertFail = none) :
    ensure_quest env st
      = (⟨(upsertQuestRow env st.db).1, st.events, st.trace ++ [Op.questUpsert]⟩,
         .ok (upsertQuestRow env st.db).2) := by
  simp [ensure_quest, h]

theorem ensure_participant_err (env : RemoteEnv) (st : RunState) (qid uid : String)
    (e : PyErr) (h : env.participantUpsertFail = some e) :
    ensure_participant env st qid uid
      = (⟨st.db, st.events, st.trace ++ [Op.participantUpsert]⟩, .error e) := by
  simp [ensure_participant, h]

theorem ensure_participant_ok (env : RemoteEnv) (st : RunState) (qid uid : String)
    (h : env.participantUpsertFail = none) :
    ensure_participant env st qid uid
      = (⟨upsertParticipantRow st.db qid uid, st.events,
          st.trace ++ [Op.participantUpsert]⟩, .ok ()) := by
  simp [ensure_participant, h]

theorem ensure_progress_err (env : RemoteEnv) (st : RunState) (qid uid : String)
    (e : PyErr) (h : env.progressUpsertFail = some e) :
    ensure_progress env st qid uid
      = (⟨st.db, st.events, st.trace ++ [Op.progressUpsert]⟩, .error e) := by
  simp [ensure_progress, h]

theorem ensure_progress_ok (env : RemoteEnv) (st : RunState) (qid uid : String)
    (h : env.progressUpsertFail = none) :
    ensure_progress env st qid uid
      = (⟨upsertProgressRow st.db qid uid, st.events,
          st.trace ++ [Op.progressUpsert]⟩, .ok ()) := by
  simp [ensure_progress, h]

theorem broadcast_db (env : RemoteEnv) (st : RunState) (event uid : String)
    (detail : Option String) : (broadcast env st event uid detail).fst.db = st.db := by
  unfold broadcast
  cases h : env.broadcastFail with
  | none => rfl
  | some e => cases e <;> rfl

theorem broadcast_trace (env : RemoteEnv) (st : RunState) (event uid : String)
    (detail : Option String) :
    (broadcast env st event uid detail).fst.trace = st.trace ++ [Op.broadcastPublish event] := by
  unfold broadcast
  cases h : env.broadcastFail with
  | none => rfl
  | some e => cases e <;> rfl

theorem broadcast_snd_ok (env : RemoteEnv) (st : RunState) (event uid : String)
    (detail : Option String) (h : broadcastSwallowed env = true) :
    (broadcast env st event uid detail).snd = .ok () := by
  unfold broadcast
  unfold broadcastSwallowed at h
  cases hb : env.broadcastFail with
  | none => rfl
  | some e => rw [hb] at h; simp at h; simp [h]

theorem daydefOnExc_db (env : RemoteEnv) (st : RunState) (uid : String) (e : PyErr) :
    (daydefOnExc env st uid e).fst.db = st.db := by
  unfold daydefOnExc broadcast_ready broadcast
  cases h : env.broadcastFail with
  | none => rfl
  | some e2 => cases e2 <;> rfl

theorem daydefOnExc_trace (env : RemoteEnv) (st : RunState) (uid : String) (e : PyErr) :
    (daydefOnExc env st uid e).fst.trace = st.trace ++ [Op.broadcastPublish "error"] := by
  unfold daydefOnExc broadcast_ready broadcast
  cases h : env.broadcastFail with
  | none => rfl
  | some e2 => cases e2 <;> rfl

theorem daydefOnExc_snd (env : RemoteEnv) (st : RunState) (uid : String) (e : PyErr)
    (h : broadcastSwallowed env = true) :
    (daydefOnExc env st uid e).snd = .error e := by
  unfold daydefOnExc broadcast_ready broadcast
  unfold broadcastSwallowed at h
  cases hb : env.broadcastFail with
  | none => rfl
  | some e2 => rw [hb] at h; simp at h; simp [h]

theorem daydefOnExc_isErr (env : RemoteEnv) (st : RunState) (uid : String) (e : PyErr) :
    isErr (daydefOnExc env st uid e).snd = true := by
  unfold daydefOnExc broadcast_ready broadcast
  cases h : env.broadcastFail with
  | none => rfl
  | some e2 => cases he : e2.isAPIError <;> simp [he, isErr]

theorem daydefOnExc_form (env : RemoteEnv) (st : RunState) (uid : String) (e : PyErr) :
    ∃ evs e', daydefOnExc env st uid e
      = (⟨st.db, st.events ++ evs, st.trace ++ [Op.broadcastPublish "error"]⟩, .error e') := by
  unfold daydefOnExc broadcast_ready broadcast
  cases h : env.broadcastFail with
  | none => exact ⟨[⟨"error", uid, some e.message⟩], e, rfl⟩
  | some e2 =>
      cases he : e2.isAPIError with
      | true => exact ⟨[], e, by simp [he]⟩
      | false => exact ⟨[], e2, by simp [he]⟩

theorem rpcOnApiErr_trace (env : RemoteEnv) (st : RunState) (uid : String) (e : PyErr) :
    (rpcOnApiErr env st uid e).fst.trace = st.trace ++ [Op.broadcastPublish "error"] := by
  unfold rpcOnApiErr broadcast_ready broadcast
  cases h : env.broadcastFail with
  | none => rfl
  | some e2 => cases e2 <;> rfl

theorem rpcOnApiErr_db (env : RemoteEnv) (st : RunState) (uid : String) (e : PyErr) :
    (rpcOnApiErr env st uid e).fst.db = st.db := by
  unfold rpcOnApiErr broadcast_ready broadcast
  cases h : env.broadcastFail with
  | none => rfl
  | some e2 => cases e2 <;> rfl

theorem rpcOnApiErr_isErr (env : RemoteEnv) (st : RunState) (uid : String) (e : PyErr) :
    isErr (rpcOnApiErr env st uid e).snd = true := by
  unfold rpcOnApiErr broadcast_ready broadcast
  cases h : env.broadcastFail with
  | none => rfl
  | some e2 => cases he : e2.isAPIError <;> simp [he, isErr]

theorem rpcOnApiErr_snd (env : RemoteEnv) (st : RunState) (uid : String) (e : PyErr)
    (h : broadcastSwallowed env = true) :
    (rpcOnApiErr env st uid e).snd = .error (.runtimeError e.message) := by
  unfold rpcOnApiErr broadcast_ready broadcast
  unfold broadcastSwallowed at h
  cases hb : env.broadcastFail with
  | none => rfl
  | some e2 => rw [hb] at h; simp at h; simp [h]

theorem finishReady_trace (env : RemoteEnv) (st : RunState) (uid : String) :
    (finishReady env st uid).fst.trace = st.trace ++ [Op.broadcastPublish "ready"] := by
  unfold finishReady broadcast_ready broadcast
  cases h : env.broadcastFail with
  | none => rfl
  | some e2 => cases e2 <;> rfl

theorem finishReady_db (env : RemoteEnv) (st : RunState) (uid : String) :
    (finishReady env st uid).fst.db = st.db := by
  unfold finishReady broadcast_ready broadcast
  cases h : env.broadcastFail with
  | none => rfl
  | some e2 => cases e2 <;> rfl

theorem finishReady_snd (env : RemoteEnv) (st : RunState) (uid : String)
    (h : broadcastSwallowed env = true) :
    (finishReady env st uid).snd = .ok () := by
  unfold finishReady broadcast_ready broadcast
  unfold broadcastSwallowed at h
  cases hb : env.broadcastFail with
  | none => rfl
  | some e2 => rw [hb] at h; simp at h; simp [h]

theorem load_daydef_db (env : RemoteEnv) (st : RunState) (uid : String) (day : Nat) :
    (load_daydef env st uid day).fst.db = st.db := by
  unfold load_daydef
  split
  · exact daydefOnExc_db ..
  · split
    · exact daydefOnExc_db ..
    · split
      · split
        · split
          · rfl
          · exact daydefOnExc_db ..
        · exact daydefOnExc_db ..
      · exact daydefOnExc_db ..

theorem load_daydef_ok_eq (env : RemoteEnv) (st : RunState) (uid : String) (day : Nat)
    (doc : JValue) (h : loadOutcome env day = .ok doc) :
    load_daydef env st uid day
      = (⟨st.db, st.events, st.trace ++ [Op.storageDownload (daydefKey day)]⟩, .ok doc) := by
  unfold loadOutcome at h
  unfold load_daydef
  split at h <;> rename_i heq
  · simp at h
  · split at h <;> rename_i hj
    · simp at h
    · split at h <;> rename_i hg
      · split at h <;> rename_i ht
        · simp at h
          subst h
          simp [heq, hj, hg, ht]
        · simp at h
      · simp at h
    · simp at h

theorem load_daydef_err (env : RemoteEnv) (st : RunState) (uid : String) (day : Nat)
    (e : PyErr) (h : loadOutcome env day = .error e) :
    load_daydef env st uid day
      = daydefOnExc env
          ⟨st.db, st.events, st.trace ++ [Op.storageDownload (daydefKey day)]⟩ uid e := by
  unfold loadOutcome at h
  unfold load_daydef
  split at h <;> rename_i heq
  · simp at h
    subst h
    simp [heq]
  · split at h <;> rename_i hj
    · simp at h
      subst h
      simp [heq, hj]
    · split at h <;> rename_i hg
      · split at h <;> rename_i ht
        · simp at h
        · simp at h
          subst h
          simp [heq, hj, hg, ht]
      · simp at h
        subst h
        simp [heq, hj, hg]
    · simp at h
      subst h
      simp [heq, hj]

theorem load_daydef_err_form (env : RemoteEnv) (st : RunState) (uid : String) (day : Nat)
    (e : PyErr) (h : loadOutcome env day = .error e) :
    ∃ evs e', load_daydef env st uid day
      = (⟨st.db, st.events ++ evs,
          st.trace ++ [Op.storageDownload (daydefKey day), Op.broadcastPublish "error"]⟩,
         .error e') := by
  obtain ⟨evs, e', hfm⟩ := daydefOnExc_form env
    ⟨st.db, st.events, st.trace ++ [Op.storageDownload (daydefKey day)]⟩ uid e
  refine ⟨evs, e', ?_⟩
  rw [load_daydef_err env st uid day e h, hfm]
  simp

theorem contentOk_loadOutcome_ok (env : RemoteEnv) (day : Nat)
    (h : contentOk env day = true) : ∃ doc, loadOutcome env day = .ok doc := by
  unfold contentOk at h
  unfold loadOutcome
  split at h <;> rename_i heq
  · simp at h
  · split at h <;> rename_i hj
    · simp at h
    · split at h <;> rename_i hg
      · simp only [h]
        exact ⟨_, rfl⟩
      · simp at h
    · simp at h

theorem contentOk_loadOutcome_err (env : RemoteEnv) (day : Nat)
    (h : contentOk env day = false) : ∃ e, loadOutcome env day = .error e := by
  unfold contentOk at h
  unfold loadOutcome
  split at h <;> rename_i heq
  · exact ⟨_, rfl⟩
  · split at h <;> rename_i hj
    · exact ⟨_, rfl⟩
    · split at h <;> rename_i hg
      · simp only [h]
        exact ⟨_, rfl⟩
      · exact ⟨_, rfl⟩
    · exact ⟨_, rfl⟩

theorem pair_snd_eq {α β : Type} (p : α × β) (b : β) (h : p.snd = b) : p = (p.fst, b) :=
  Prod.ext rfl h

theorem update_snd (u k uid : String) (env : RemoteEnv) (db : DB)
    (hb : broadcastSwallowed env = true) :
    (update_flame_status ⟨some u, some k⟩ env db uid).snd = runOutcome env := by
  unfold update_flame_status runOutcome
  cases hq : env.questUpsertFail with
  | some e => rw [ensure_quest_err env _ e hq]
  | none =>
    rw [ensure_quest_ok env _ hq]
    cases hr : env.rpcResult with
    | error e =>
      dsimp only
      cases hapi : e.isAPIError with
      | true =>
        simp only [hapi, if_true]
        rw [rpcOnApiErr_snd env _ uid e hb]
      | false => simp [hapi]
    | ok imp =>
      dsimp only
      cases hlo : loadOutcome env 1 with
      | error e =>
        rw [load_daydef_err env _ uid 1 e hlo]
        rw [pair_snd_eq _ _ (daydefOnExc_snd env _ uid e hb)]
      | ok doc =>
        rw [load_daydef_ok_eq env _ uid 1 doc hlo]
        dsimp only
        rw [finishReady_snd env _ uid hb]

theorem update_quest_fail (u k uid : String) (env : RemoteEnv) (db : DB) (e : PyErr)
    (hq : env.questUpsertFail = some e) :
    update_flame_status ⟨some u, some k⟩ env db uid
      = (⟨db, [], [Op.questUpsert]⟩, .error e) := by
  unfold update_flame_status
  rw [ensure_quest_err env _ e hq]
  simp [initState]

theorem update_rpc_apifail (u k uid : String) (env : RemoteEnv) (db : DB) (e : PyErr)
    (hq : env.questUpsertFail = none) (hr : env.rpcResult = .error e)
    (hapi : e.isAPIError = true) :
    (update_flame_status ⟨some u, some k⟩ env db uid).fst.trace
      = [Op.questUpsert, Op.rpcEnsureFirstFlame, Op.broadcastPublish "error"] ∧
    isErr (update_flame_status ⟨some u, some k⟩ env db uid).snd = true := by
  unfold update_flame_status
  rw [ensure_quest_ok env _ hq, hr]
  dsimp only
  simp only [hapi, if_true]
  constructor
  · rw [rpcOnApiErr_trace]
    rfl
  · exact rpcOnApiErr_isErr env _ uid e

theorem update_rpc_otherfail (u k uid : String) (env : RemoteEnv) (db : DB) (e : PyErr)
    (hq : env.questUpsertFail = none) (hr : env.rpcResult = .error e)
    (hapi : e.isAPIError = false) :
    update_flame_status ⟨some u, some k⟩ env db uid
      = (⟨(upsertQuestRow env db).1, [], [Op.questUpsert, Op.rpcEnsureFirstFlame]⟩,
         .error e) := by
  unfold update_flame_status
  rw [ensure_quest_ok env _ hq, hr]
  dsimp only
  simp [hapi, initState]

theorem update_content_fail (u k uid imp : String) (env : RemoteEnv) (db : DB) (e : PyErr)
    (hq : env.questUpsertFail = none) (hr : env.rpcResult = .ok imp)
    (hlo : loadOutcome env 1 = .error e) :
    (update_flame_status ⟨some u, some k⟩ env db uid).fst.trace
      = [Op.questUpsert, Op.rpcEnsureFirstFlame, Op.storageDownload (daydefKey 1),
         Op.broadcastPublish "error"] ∧
    (update_flame_status ⟨some u, some k⟩ env db uid).fst.db
      = env.rpcDb (upsertQuestRow env db).1 ∧
    isErr (update_flame_status ⟨some u, some k⟩ env db uid).snd = true := by
  unfold update_flame_status
  rw [ensure_quest_ok env _ hq, hr]
  dsimp only
  simp only [initState, List.nil_append, List.singleton_append]
  obtain ⟨evs, e', hfm⟩ := load_daydef_err_form env
    ⟨env.rpcDb (upsertQuestRow env db).1, [],
     [Op.questUpsert, Op.rpcEnsureFirstFlame]⟩ uid 1 e hlo
  rw [hfm]
  refine ⟨by simp, rfl, rfl⟩

theorem update_content_ok_eq (u k uid imp : String) (env : RemoteEnv) (db : DB)
    (doc : JValue) (hq : env.questUpsertFail = none) (hr : env.rpcResult = .ok imp)
    (hlo : loadOutcome env 1 = .ok doc) :
    update_flame_status ⟨some u, some k⟩ env db uid
      = finishReady env
          ⟨env.rpcDb (upsertQuestRow env db).1, [],
           [Op.questUpsert, Op.rpcEnsureFirstFlame, Op.storageDownload (daydefKey 1)]⟩
          uid := by
  unfold update_flame_status
  rw [ensure_quest_ok env _ hq, hr]
  dsimp only
  simp only [initState, List.nil_append, List.singleton_append]
  rw [load_daydef_ok_eq env
    ⟨env.rpcDb (upsertQuestRow env db).1, [], [Op.questUpsert, Op.rpcEnsureFirstFlame]⟩
    uid 1 doc hlo]
  dsimp only
  simp

theorem ensure_flame_ok_eq (u k uid : String) (env : RemoteEnv) (db : DB)
    (hq : env.questUpsertFail = none) (hp : env.participantUpsertFail = none)
    (hpr : env.progressUpsertFail = none) :
    ensure_flame_state ⟨some u, some k⟩ env db uid
      = (⟨upsertProgressRow
            (upsertParticipantRow (upsertQuestRow env db).1 (upsertQuestRow env db).2 uid)
            (upsertQuestRow env db).2 uid,
          [], [Op.questUpsert, Op.participantUpsert, Op.progressUpsert]⟩,
         .ok ⟨(upsertQuestRow env db).2⟩) := by
  unfold ensure_flame_state
  rw [ensure_quest_ok env _ hq]
  dsimp only
  rw [ensure_participant_ok env _ _ uid hp]
  dsimp only
  rw [ensure_progress_ok env _ _ uid hpr]
  simp [initState]

theorem ensure_flame_quest_fail (u k uid : String) (env : RemoteEnv) (db : DB) (e : PyErr)
    (hq : env.questUpsertFail = some e) :
    ensure_flame_state ⟨some u, some k⟩ env db uid
      = (⟨db, [], [Op.questUpsert]⟩, .error e) := by
  unfold ensure_flame_state
  rw [ensure_quest_err env _ e hq]
  simp [initState]

theorem ensure_flame_part_fail (u k uid : String) (env : RemoteEnv) (db : DB) (e : PyErr)
    (hq : env.questUpsertFail = none) (hp : env.participantUpsertFail = some e) :
    ensure_flame_state ⟨some u, some k⟩ env db uid
      = (⟨(upsertQuestRow env db).1, [], [Op.questUpsert, Op.participantUpsert]⟩,
         .error e) := by
  unfold ensure_flame_state
  rw [ensure_quest_ok env _ hq]
  dsimp only
  rw [ensure_participant_err env _ _ uid e hp]
  simp [initState]

theorem ensure_flame_prog_fail (u k uid : String) (env : RemoteEnv) (db : DB) (e : PyErr)
    (hq : env.questUpsertFail = none) (hp : env.participantUpsertFail = none)
    (hpr : env.progressUpsertFail = some e) :
    ensure_flame_state ⟨some u, some k⟩ env db uid
      = (⟨upsertParticipantRow (upsertQuestRow env db).1 (upsertQuestRow env db).2 uid,
          [], [Op.questUpsert, Op.participantUpsert, Op.progressUpsert]⟩,
         .error e) := by
  unfold ensure_flame_state
  rw [ensure_quest_ok env _ hq]
  dsimp only
  rw [ensure_participant_ok env _ _ uid hp]
  dsimp only
  rw [ensure_progress_err env _ _ uid e hpr]
  simp [initState]

theorem update_ok (u k uid imp : String) (env : RemoteEnv) (db : DB)
    (hq : env.questUpsertFail = none) (hr : env.rpcResult = .ok imp)
    (hc : contentOk env 1 = true) (hb : broadcastSwallowed env = true) :
    (update_flame_status ⟨some u, some k⟩ env db uid).snd = .ok () := by
  obtain ⟨doc, hlo⟩ := contentOk_loadOutcome_ok env 1 hc
  rw [update_snd u k uid env db hb]
  simp [runOutcome, hq, hr, hlo]

theorem update_trace_quest_ok (u k uid : String) (env : RemoteEnv) (db : DB)
    (hq : env.questUpsertFail = none) :
    ∃ rest, (update_flame_status ⟨some u, some k⟩ env db uid).fst.trace
      = Op.questUpsert :: Op.rpcEnsureFirstFlame :: rest := by
  cases hr : env.rpcResult with
  | error e =>
    cases hapi : e.isAPIError with
    | true =>
      obtain ⟨htr, -⟩ := update_rpc_apifail u k uid env db e hq hr hapi
      exact ⟨[Op.broadcastPublish "error"], by rw [htr]⟩
    | false =>
      rw [update_rpc_otherfail u k uid env db e hq hr hapi]
      exact ⟨[], rfl⟩
  | ok imp =>
    cases hc : contentOk env 1 with
    | false =>
      obtain ⟨e, hlo⟩ := contentOk_loadOutcome_err env 1 hc
      obtain ⟨htr, -, -⟩ := update_content_fail u k uid imp env db e hq hr hlo
      exact ⟨[Op.storageDownload (daydefKey 1), Op.broadcastPublish "error"], by rw [htr]⟩
    | true =>
      obtain ⟨doc, hlo⟩ := contentOk_loadOutcome_ok env 1 hc
      rw [update_content_ok_eq u k uid imp env db doc hq hr hlo]
      rw [finishReady_trace]
      exact ⟨[Op.storageDownload (daydefKey 1), Op.broadcastPublish "ready"], by simp⟩

theorem update_trace_download (u k uid imp : String) (env : RemoteEnv) (db : DB)
    (hq : env.questUpsertFail = none) (hr : env.rpcResult = .ok imp) :
    ∃ rest, (update_flame_status ⟨some u, some k⟩ env db uid).fst.trace
      = Op.questUpsert :: Op.rpcEnsureFirstFlame :: Op.storageDownload (daydefKey 1)
          :: rest := by
  cases hc : contentOk env 1 with
  | false =>
    obtain ⟨e, hlo⟩ := contentOk_loadOutcome_err env 1 hc
    obtain ⟨htr, -, -⟩ := update_content_fail u k uid imp env db e hq hr hlo
    exact ⟨[Op.broadcastPublish "error"], by rw [htr]⟩
  | true =>
    obtain ⟨doc, hlo⟩ := contentOk_loadOutcome_ok env 1 hc
    rw [update_content_ok_eq u k uid imp env db doc hq hr hlo]
    rw [finishReady_trace]
    exact ⟨[Op.broadcastPublish "ready"], by simp⟩

/-- C1: the claim states that re-running the seeding leaves an already
advanced progress row unchanged.  Evaluating `ensure_flame_state` on a store
where user u1 has `current_day_target = 3, is_quest_complete = true` shows the
opposite: the run succeeds and the progress row is reset to the day-1 defaults
`current_day_target = 1, is_quest_complete = false`, because the upsert
updates the payload columns in place on conflict instead of inserting only
when the row is missing. -/
theorem C1_progress_regressed :
    (ensure_flame_state osOk envAllOk dbAdvanced "u1").snd = .ok ⟨"q1"⟩ ∧
    dbAdvanced.progress = [⟨"q1", "u1", 3, true⟩] ∧
    (ensure_flame_state osOk envAllOk dbAdvanced "u1").fst.db.progress
      = [⟨"q1", "u1", 1, false⟩] := ⟨rfl, rfl, rfl⟩

/-- C2 counterexample: the claim states that no failure of the notification
publish call ever propagates.  Here every seeding step succeeds, but the
broadcast RPC raises a connection error — a class other than APIError, which
the handler does not catch — and the run raises it to the caller instead of
returning its true DONE outcome. -/
theorem C2_counterexample :
    envBCFail.questUpsertFail = none ∧ envBCFail.rpcResult = .ok "imprint-1" ∧
    contentOk envBCFail 1 = true ∧
    (update_flame_status osOk envBCFail DB.empty "u1").snd
      = .error (.otherError "ConnectionError") := ⟨rfl, rfl, rfl, rfl⟩

/-- C2 amended: when the notification publish call fails with an APIError,
the failure is swallowed and the run returns exactly the outcome it would
have returned had the publish call succeeded; publish failures of other
exception classes are not swallowed. -/
theorem C2_notifier_api_swallowed (osenv : OsEnv) (env : RemoteEnv) (db : DB) (uid : String)
    (e : PyErr) (hb : env.broadcastFail = some e) (hapi : e.isAPIError = true) :
    (update_flame_status osenv env db uid).snd
      = (update_flame_status osenv { env with broadcastFail := none } db uid).snd := by
  obtain ⟨url, key⟩ := osenv
  cases url with
  | none => rfl
  | some u =>
    cases key with
    | none => rfl
    | some k =>
      have h1 : broadcastSwallowed env = true := by
        unfold broadcastSwallowed
        rw [hb]
        exact hapi
      have h2 : broadcastSwallowed { env with broadcastFail := none } = true := rfl
      rw [update_snd u k uid env db h1, update_snd u k uid _ db h2]
      rfl

/-- C2 amended, witness: a concrete healthy run whose broadcast RPC raises an
APIError returns the same outcome as the run with a healthy broadcast. -/
theorem C2_witness :
    (update_flame_status osOk envBCApi DB.empty "u1").snd
      = (update_flame_status osOk { envBCApi with broadcastFail := none } DB.empty "u1").snd :=
  C2_notifier_api_swallowed osOk envBCApi DB.empty "u1" (.apiError "500" "oops") rfl rfl

/-- C3 counterexample: the claim states every step failure triggers a
best-effort error notification before being surfaced.  Two concrete step
failures refute it.  First, the quest upsert fails: the run surfaces the
failure, but the trace shows no broadcast publish was even attempted and no
event was delivered.  Second, the ensure_first_flame RPC raises a connection
error — a class other than APIError, which its handler does not catch: the
run surfaces that failure raw, again with no publish attempted and no event
delivered. -/
theorem C3_counterexample :
    ((update_flame_status osOk envQFail DB.empty "u1").snd
        = .error (.apiError "42501" "permission denied") ∧
      (update_flame_status osOk envQFail DB.empty "u1").fst.trace = [Op.questUpsert] ∧
      (update_flame_status osOk envQFail DB.empty "u1").fst.events = []) ∧
    ((update_flame_status osOk envRpcConnFail DB.empty "u1").snd
        = .error (.otherError "ConnectionError") ∧
      (update_flame_status osOk envRpcConnFail DB.empty "u1").fst.trace
        = [Op.questUpsert, Op.rpcEnsureFirstFlame] ∧
      (update_flame_status osOk envRpcConnFail DB.empty "u1").fst.events = []) :=
  ⟨⟨rfl, rfl, rfl⟩, ⟨rfl, rfl, rfl⟩⟩

/-- C3 amended: every step failure short-circuits the remaining steps and is
surfaced to the caller — the four conjuncts cover every failing step: the
quest upsert, the participant-seeding RPC (either exception class), and the
content validation.  A failure of the participant-seeding RPC raised as
APIError, and every failure of the content-validation step, additionally
attempt a best-effort error notification before the failure is surfaced; a
failure of the quest-ensure step, and a participant-seeding RPC failure of
any other exception class, surface directly with no notification attempt. -/
theorem C3_step_failures (u k uid : String) (env : RemoteEnv) (db : DB) :
    (∀ e, env.questUpsertFail = some e →
        update_flame_status ⟨some u, some k⟩ env db uid
          = (⟨db, [], [Op.questUpsert]⟩, .error e)) ∧
    (∀ e, env.questUpsertFail = none → env.rpcResult = .error e → e.isAPIError = false →
        update_flame_status ⟨some u, some k⟩ env db uid
          = (⟨(upsertQuestRow env db).1, [], [Op.questUpsert, Op.rpcEnsureFirstFlame]⟩,
             .error e)) ∧
    (∀ e, env.questUpsertFail = none → env.rpcResult = .error e → e.isAPIError = true →
        (update_flame_status ⟨some u, some k⟩ env db uid).fst.trace
          = [Op.questUpsert, Op.rpcEnsureFirstFlame, Op.broadcastPublish "error"] ∧
        isErr (update_flame_status ⟨some u, some k⟩ env db uid).snd = true) ∧
    (∀ imp, env.questUpsertFail = none → env.rpcResult = .ok imp →
        contentOk env 1 = false →
        (update_flame_status ⟨some u, some k⟩ env db uid).fst.trace
          = [Op.questUpsert, Op.rpcEnsureFirstFlame, Op.storageDownload (daydefKey 1),
             Op.broadcastPublish "error"] ∧
        isErr (update_flame_status ⟨some u, some k⟩ env db uid).snd = true) := by
  refine ⟨fun e he => update_quest_fail u k uid env db e he,
          fun e hq hr hapi => update_rpc_otherfail u k uid env db e hq hr hapi,
          fun e hq hr hapi => update_rpc_apifail u k uid env db e hq hr hapi,
          fun imp hq hr hc => ?_⟩
  obtain ⟨e, hlo⟩ := contentOk_loadOutcome_err env 1 hc
  obtain ⟨htr, -, hsnd⟩ := update_content_fail u k uid imp env db e hq hr hlo
  exact ⟨htr, hsnd⟩

/-- C3 amended, witness: the quest-failure conjunct evaluated at a concrete
store rejection, and the non-APIError RPC-failure conjunct evaluated at a
concrete connection error. -/
theorem C3_witness :
    (update_flame_status osOk envQFail DB.empty "u2"
       = (⟨DB.empty, [], [Op.questUpsert]⟩,
          .error (.apiError "42501" "permission denied"))) ∧
    (update_flame_status osOk envRpcConnFail DB.empty "u2"
       = (⟨(upsertQuestRow envRpcConnFail DB.empty).1, [],
           [Op.questUpsert, Op.rpcEnsureFirstFlame]⟩,
          .error (.otherError "ConnectionError"))) :=
  ⟨(C3_step_failures "https://store.example" "service-key" "u2" envQFail DB.empty).1
      (.apiError "42501" "permission denied") rfl,
   (C3_step_failures "https://store.example" "service-key" "u2" envRpcConnFail DB.empty).2.1
      (.otherError "ConnectionError") rfl rfl rfl⟩

/-- C4: the content loader fails when the remote object does not exist, fails
when the fetched bytes do not parse, rejects a parsed document whose prompts
collection is empty, and accepts a document with a non-empty prompts
collection, returning the parsed document unchanged. -/
theorem C4_load_and_validate (env : RemoteEnv) (st : RunState) (uid : String) (day : Nat) :
    (∀ e, env.download (daydefKey day) = .error e →
        isErr (load_daydef env st uid day).snd = true) ∧
    (∀ blob e, env.download (daydefKey day) = .ok blob →
        env.jsonLoads blob = .error e →
        isErr (load_daydef env st uid day).snd = true) ∧
    (∀ blob fs, env.download (daydefKey day) = .ok blob →
        env.jsonLoads blob = .ok (.jobj fs) → jget fs "prompts" = some (.jarr []) →
        isErr (load_daydef env st uid day).snd = true) ∧
    (∀ blob fs p ps, env.download (daydefKey day) = .ok blob →
        env.jsonLoads blob = .ok (.jobj fs) →
        jget fs "prompts" = some (.jarr (p :: ps)) →
        (load_daydef env st uid day).snd = .ok (.jobj fs)) := by
  refine ⟨fun e hd => ?_, fun blob e hd hj => ?_, fun blob fs hd hj hg => ?_,
          fun blob fs p ps hd hj hg => ?_⟩
  · have hlo : loadOutcome env day = .error e := by
      unfold loadOutcome
      simp [hd]
    rw [load_daydef_err env st uid day e hlo]
    exact daydefOnExc_isErr env _ uid e
  · have hlo : loadOutcome env day = .error e := by
      unfold loadOutcome
      simp [hd, hj]
    rw [load_daydef_err env st uid day e hlo]
    exact daydefOnExc_isErr env _ uid e
  · have hlo : loadOutcome env day
        = .error (.valueError "Day-definition JSON missing 'prompts' array") := by
      unfold loadOutcome
      simp [hd, hj, hg, JValue.truthy]
    rw [load_daydef_err env st uid day _ hlo]
    exact daydefOnExc_isErr env _ uid _
  · have hlo : loadOutcome env day = .ok (.jobj fs) := by
      unfold loadOutcome
      simp [hd, hj, hg, JValue.truthy]
    rw [load_daydef_ok_eq env st uid day _ hlo]

/-- C4 witness: the loader accepts a one-prompt document and returns it,
rejects an empty-prompts document, and fails when the object is missing. -/
theorem C4_witness :
    (load_daydef envAllOk (initState DB.empty) "u1" 1).snd
      = .ok (.jobj [("prompts", .jarr [.jobj [("text", .jstr "hi")]])]) ∧
    isErr (load_daydef envEmptyPrompts (initState DB.empty) "u1" 1).snd = true ∧
    isErr (load_daydef envContentMissing (initState DB.empty) "u1" 1).snd = true :=
  ⟨(C4_load_and_validate envAllOk (initState DB.empty) "u1" 1).2.2.2 "blob"
      [("prompts", .jarr [.jobj [("text", .jstr "hi")]])] (.jobj [("text", .jstr "hi")]) []
      rfl rfl rfl,
   (C4_load_and_validate envEmptyPrompts (initState DB.empty) "u1" 1).2.2.1 "blob"
      [("prompts", .jarr [])] rfl rfl rfl,
   (C4_load_and_validate envContentMissing (initState DB.empty) "u1" 1).1
      (.otherError "object not found") rfl⟩

/-- C5: step ordering.  In the orchestrator variant, the participant-state
write (the `ensure_first_flame` RPC) is issued only after the quest upsert
has succeeded and immediately after it, and the content download is issued
only after the RPC has succeeded and immediately after it; in the thin
variant, the participant and progress upserts are issued only after the quest
upsert (and, for progress, the participant upsert) has succeeded, in that
order. -/
theorem C5_step_ordering (osenv : OsEnv) (env : RemoteEnv) (db : DB) (uid : String) :
    (Op.rpcEnsureFirstFlame ∈ (update_flame_status osenv env db uid).fst.trace →
        env.questUpsertFail = none ∧
        ∃ rest, (update_flame_status osenv env db uid).fst.trace
          = Op.questUpsert :: Op.rpcEnsureFirstFlame :: rest) ∧
    (Op.storageDownload (daydefKey 1) ∈ (update_flame_status osenv env db uid).fst.trace →
        (∃ imp, env.rpcResult = .ok imp) ∧
        ∃ rest, (update_flame_status osenv env db uid).fst.trace
          = Op.questUpsert :: Op.rpcEnsureFirstFlame
              :: Op.storageDownload (daydefKey 1) :: rest) ∧
    (Op.participantUpsert ∈ (ensure_flame_state osenv env db uid).fst.trace →
        env.questUpsertFail = none ∧
        ∃ rest, (ensure_flame_state osenv env db uid).fst.trace
          = Op.questUpsert :: Op.participantUpsert :: rest) ∧
    (Op.progressUpsert ∈ (ensure_flame_state osenv env db uid).fst.trace →
        env.questUpsertFail = none ∧ env.participantUpsertFail = none ∧
        (ensure_flame_state osenv env db uid).fst.trace
          = [Op.questUpsert, Op.participantUpsert, Op.progressUpsert]) := by
  obtain ⟨url, key⟩ := osenv
  cases url with
  | none => simp [update_flame_status, ensure_flame_state, initState]
  | some u =>
  cases key with
  | none => simp [update_flame_status, ensure_flame_state, initState]
  | some k =>
  cases hq : env.questUpsertFail with
  | some e =>
      rw [update_quest_fail u k uid env db e hq, ensure_flame_quest_fail u k uid env db e hq]
      simp
  | none =>
      refine ⟨fun _ => ⟨rfl, update_trace_quest_ok u k uid env db hq⟩, ?_, ?_, ?_⟩
      · intro hmem
        cases hr : env.rpcResult with
        | error e =>
            cases hapi : e.isAPIError with
            | true =>
                obtain ⟨htr, -⟩ := update_rpc_apifail u k uid env db e hq hr hapi
                rw [htr] at hmem
                simp [daydefKey] at hmem
            | false =>
                rw [update_rpc_otherfail u k uid env db e hq hr hapi] at hmem
                simp [daydefKey] at hmem
        | ok imp =>
            exact ⟨⟨imp, rfl⟩, update_trace_download u k uid imp env db hq hr⟩
      · intro hmem
        cases hp : env.participantUpsertFail with
        | some e =>
            rw [ensure_flame_part_fail u k uid env db e hq hp]
            exact ⟨rfl, [], rfl⟩
        | none =>
            cases hpr : env.progressUpsertFail with
            | some e =>
                rw [ensure_flame_prog_fail u k uid env db e hq hp hpr]
                exact ⟨rfl, [Op.progressUpsert], rfl⟩
            | none =>
                rw [ensure_flame_ok_eq u k uid env db hq hp hpr]
                exact ⟨rfl, [Op.progressUpsert], rfl⟩
      · intro hmem
        cases hp : env.participantUpsertFail with
        | some e =>
            rw [ensure_flame_part_fail u k uid env db e hq hp] at hmem
            simp at hmem
        | none =>
            cases hpr : env.progressUpsertFail with
            | some e =>
                rw [ensure_flame_prog_fail u k uid env db e hq hp hpr]
                exact ⟨rfl, rfl, rfl⟩
            | none =>
                rw [ensure_flame_ok_eq u k uid env db hq hp hpr]
                exact ⟨rfl, rfl, rfl⟩

/-- C5 witness: in a concrete healthy run the RPC appears in the trace, the
quest upsert preceded it, and the download follows the RPC. -/
theorem C5_witness :
    (envAllOk.questUpsertFail = none ∧
      ∃ rest, (update_flame_status osOk envAllOk DB.empty "u1").fst.trace
        = Op.questUpsert :: Op.rpcEnsureFirstFlame :: rest) ∧
    ((∃ imp, envAllOk.rpcResult = .ok imp) ∧
      ∃ rest, (update_flame_status osOk envAllOk DB.empty "u1").fst.trace
        = Op.questUpsert :: Op.rpcEnsureFirstFlame
            :: Op.storageDownload (daydefKey 1) :: rest) :=
  ⟨(C5_step_ordering osOk envAllOk DB.empty "u1").1 (by decide),
   (C5_step_ordering osOk envAllOk DB.empty "u1").2.1 (by decide)⟩

/-- C6: when the content-validation step fails after the quest upsert and the
participant-seeding RPC succeeded, the run fails, the store is exactly as the
two preceding successful steps left it (nothing is rolled back or modified by
the failure path), and a subsequent run over that store under a healthy
environment returns DONE. -/
theorem C6_content_failure_frame (u k uid imp : String) (env : RemoteEnv) (db : DB)
    (hq : env.questUpsertFail = none) (hr : env.rpcResult = .ok imp)
    (hc : contentOk env 1 = false) :
    isErr (update_flame_status ⟨some u, some k⟩ env db uid).snd = true ∧
    (update_flame_status ⟨some u, some k⟩ env db uid).fst.db
      = env.rpcDb (upsertQuestRow env db).1 ∧
    (∀ env2 : RemoteEnv, ∀ imp2 : String,
        env2.questUpsertFail = none → env2.rpcResult = .ok imp2 →
        contentOk env2 1 = true → broadcastSwallowed env2 = true →
        (update_flame_status ⟨some u, some k⟩ env2
            (update_flame_status ⟨some u, some k⟩ env db uid).fst.db uid).snd
          = .ok ()) := by
  obtain ⟨e, hlo⟩ := contentOk_loadOutcome_err env 1 hc
  obtain ⟨-, hdb, hsnd⟩ := update_content_fail u k uid imp env db e hq hr hlo
  exact ⟨hsnd, hdb,
    fun env2 imp2 hq2 hr2 hc2 hb2 => update_ok u k uid imp2 env2 _ hq2 hr2 hc2 hb2⟩

/-- C6 witness: with the day-1 object missing, the concrete run fails, the
store equals what the quest upsert and the RPC left, and a subsequent healthy
run over it returns DONE. -/
theorem C6_witness :
    isErr (update_flame_status osOk envContentMissing DB.empty "u1").snd = true ∧
    (update_flame_status osOk envContentMissing DB.empty "u1").fst.db
      = envContentMissing.rpcDb (upsertQuestRow envContentMissing DB.empty).1 ∧
    (update_flame_status osOk envAllOk
        (update_flame_status osOk envContentMissing DB.empty "u1").fst.db "u1").snd
      = .ok () := by
  obtain ⟨h1, h2, h3⟩ := C6_content_failure_frame "https://store.example" "service-key"
    "u1" "imprint-1" envContentMissing DB.empty rfl rfl rfl
  exact ⟨h1, h2, h3 envAllOk "imprint-1" rfl rfl rfl rfl⟩

/-- C7 counterexample: the claim states both implementation variants return
the quest id on the DONE path.  The orchestrator variant returns None: two
successful runs over stores whose first-flame quest rows carry different ids
return identical values, so its return value cannot contain the quest id —
while the thin variant does return the differing ids. -/
theorem C7_counterexample :
    (update_flame_status osOk envAllOk (dbWithQuest "qA") "u1").snd = .ok () ∧
    (update_flame_status osOk envAllOk (dbWithQuest "qA") "u1").snd
      = (update_flame_status osOk envAllOk (dbWithQuest "qB") "u1").snd ∧
    (ensure_flame_state osOk envAllOk (dbWithQuest "qA") "u1").snd = .ok ⟨"qA"⟩ ∧
    (ensure_flame_state osOk envAllOk (dbWithQuest "qB") "u1").snd = .ok ⟨"qB"⟩ ∧
    "qA" ≠ "qB" := ⟨rfl, rfl, rfl, rfl, by decide⟩

/-- C7 amended: on a successful run over a fresh store, the thin variant
returns a value carrying the QuestId of the quest row created for the slug
first-flame-ritual; the orchestrator variant returns None on its DONE path —
its success carries no quest id. -/
theorem C7_done_return (u k uid imp : String) (env : RemoteEnv)
    (hq : env.questUpsertFail = none) (hp : env.participantUpsertFail = none)
    (hpr : env.progressUpsertFail = none) (hr : env.rpcResult = .ok imp)
    (hc : contentOk env 1 = true) (hb : broadcastSwallowed env = true) :
    (ensure_flame_state ⟨some u, some k⟩ env DB.empty uid).snd
      = .ok ⟨env.freshQuestId⟩ ∧
    ((ensure_flame_state ⟨some u, some k⟩ env DB.empty uid).fst.db.quests.map
        (fun q => (q.id, q.slug))) = [(env.freshQuestId, FIRST_FLAME_SLUG)] ∧
    (update_flame_status ⟨some u, some k⟩ env DB.empty uid).snd = .ok () := by
  rw [ensure_flame_ok_eq u k uid env DB.empty hq hp hpr]
  exact ⟨rfl, rfl, update_ok u k uid imp env DB.empty hq hr hc hb⟩

/-- C7 amended, witness: the concrete healthy fresh-store run. -/
theorem C7_witness :
    (ensure_flame_state osOk envAllOk DB.empty "u1").snd = .ok ⟨"q-fresh"⟩ ∧
    ((ensure_flame_state osOk envAllOk DB.empty "u1").fst.db.quests.map
        (fun q => (q.id, q.slug))) = [("q-fresh", FIRST_FLAME_SLUG)] ∧
    (update_flame_status osOk envAllOk DB.empty "u1").snd = .ok () :=
  C7_done_return "https://store.example" "service-key" "u1" "imprint-1" envAllOk
    rfl rfl rfl rfl rfl rfl

/-- C8: when either credential is absent from the environment, both variants
fail before any step executes: the run raises, no remote call is attempted,
no event is delivered, and the store is untouched. -/
theorem C8_missing_credentials (osenv : OsEnv) (env : RemoteEnv) (db : DB) (uid : String)
    (h : osenv.SUPABASE_URL = none ∨ osenv.SUPABASE_SERVICE_ROLE_KEY = none) :
    (isErr (update_flame_status osenv env db uid).snd = true ∧
     (update_flame_status osenv env db uid).fst.trace = [] ∧
     (update_flame_status osenv env db uid).fst.events = [] ∧
     (update_flame_status osenv env db uid).fst.db = db) ∧
    (isErr (ensure_flame_state osenv env db uid).snd = true ∧
     (ensure_flame_state osenv env db uid).fst.trace = [] ∧
     (ensure_flame_state osenv env db uid).fst.events = [] ∧
     (ensure_flame_state osenv env db uid).fst.db = db) := by
  obtain ⟨url, key⟩ := osenv
  rcases h with h | h
  · cases url with
    | none => simp [update_flame_status, ensure_flame_state, initState, isErr]
    | some u => simp at h
  · cases key with
    | none => cases url <;> simp [update_flame_status, ensure_flame_state, initState, isErr]
    | some kk => simp at h

/-- C8 witness: the concrete run with the store URL absent. -/
theorem C8_witness :
    isErr (update_flame_status ⟨none, some "service-key"⟩ envAllOk DB.empty "u1").snd
      = true ∧
    (update_flame_status ⟨none, some "service-key"⟩ envAllOk DB.empty "u1").fst.trace
      = [] ∧
    isErr (ensure_flame_state ⟨none, some "service-key"⟩ envAllOk DB.empty "u1").snd
      = true ∧
    (ensure_flame_state ⟨none, some "service-key"⟩ envAllOk DB.empty "u1").fst.trace
      = [] := by
  obtain ⟨⟨h1, h2, -, -⟩, h3, h4, -, -⟩ := C8_missing_credentials
    ⟨none, some "service-key"⟩ envAllOk DB.empty "u1" (Or.inl rfl)
  exact ⟨h1, h2, h3, h4⟩

/-- C9: for a document parsing to a JSON object, the validator accepts and
returns the document unchanged exactly when its prompts entry is present and
truthy — whatever its shape, including non-collection values — and rejects it
exactly when the entry is absent or falsy. -/
theorem C9_truthiness (env : RemoteEnv) (st : RunState) (uid : String) (day : Nat)
    (blob : String) (fs : List (String × JValue))
    (hd : env.download (daydefKey day) = .ok blob)
    (hj : env.jsonLoads blob = .ok (.jobj fs)) :
    (∀ v, jget fs "prompts" = some v → v.truthy = true →
        (load_daydef env st uid day).snd = .ok (.jobj fs)) ∧
    (∀ v, jget fs "prompts" = some v → v.truthy = false →
        isErr (load_daydef env st uid day).snd = true) ∧
    (jget fs "prompts" = none → isErr (load_daydef env st uid day).snd = true) := by
  refine ⟨fun v hg ht => ?_, fun v hg ht => ?_, fun hg => ?_⟩
  · have hlo : loadOutcome env day = .ok (.jobj fs) := by
      unfold loadOutcome
      simp [hd, hj, hg, ht]
    rw [load_daydef_ok_eq env st uid day _ hlo]
  · have hlo : loadOutcome env day
        = .error (.valueError "Day-definition JSON missing 'prompts' array") := by
      unfold loadOutcome
      simp [hd, hj, hg, ht]
    rw [load_daydef_err env st uid day _ hlo]
    exact daydefOnExc_isErr env _ uid _
  · have hlo : loadOutcome env day
        = .error (.valueError "Day-definition JSON missing 'prompts' array") := by
      unfold loadOutcome
      simp [hd, hj, hg]
    rw [load_daydef_err env st uid day _ hlo]
    exact daydefOnExc_isErr env _ uid _

/-- C9 witness: a document whose prompts entry is the non-zero number 7 — a
truthy non-collection value — is accepted and returned unchanged. -/
theorem C9_witness :
    (load_daydef envPromptsNum (initState DB.empty) "u1" 1).snd
      = .ok (.jobj [("prompts", .jnum 7)]) :=
  (C9_truthiness envPromptsNum (initState DB.empty) "u1" 1 "blob"
      [("prompts", .jnum 7)] rfl rfl).1 (.jnum 7) rfl rfl

/-- C10: the thin variant publishes nothing: on every execution its delivered
event list is empty and its trace is a prefix of the three upserts — quest,
participant, progress — so no broadcast call of any kind is ever attempted. -/
theorem C10_no_broadcast (osenv : OsEnv) (env : RemoteEnv) (db : DB) (uid : String) :
    (ensure_flame_state osenv env db uid).fst.events = [] ∧
    ∃ n, (ensure_flame_state osenv env db uid).fst.trace
      = [Op.questUpsert, Op.participantUpsert, Op.progressUpsert].take n := by
  obtain ⟨url, key⟩ := osenv
  cases url with
  | none => exact ⟨rfl, 0, rfl⟩
  | some u =>
  cases key with
  | none => exact ⟨rfl, 0, rfl⟩
  | some k =>
  cases hq : env.questUpsertFail with
  | some e =>
      rw [ensure_flame_quest_fail u k uid env db e hq]
      exact ⟨rfl, 1, rfl⟩
  | none =>
      cases hp : env.participantUpsertFail with
      | some e =>
          rw [ensure_flame_part_fail u k uid env db e hq hp]
          exact ⟨rfl, 2, rfl⟩
      | none =>
          cases hpr : env.progressUpsertFail with
          | some e =>
              rw [ensure_flame_prog_fail u k uid env db e hq hp hpr]
              exact ⟨rfl, 3, rfl⟩
          | none =>
              rw [ensure_flame_ok_eq u k uid env db hq hp hpr]
              exact ⟨rfl, 3, rfl⟩

end FirstFlame
